import Mathlib

/-!
Verification of the lazy tabular `DataSource` of
`mindsdb_native/libs/data_types/data_source.py`.

The Python class is shallowly embedded: a pandas DataFrame becomes a list
of column names together with rows of optional cells (`none` models a
null/NaN cell); the mutable object state (`_internal_df`,
`_internal_col_map`, `data_types`, `data_subtypes`) is threaded
explicitly, and every method that can raise returns an `Except PyErr`
result *paired with the final state*, matching Python semantics where
mutations made before a raise persist on the object.

External collaborators (the concrete `_setup` of a subclass,
`moz_sql_parser.parse` / `format`, the `binary_ops` registry, and the
`DATA_TYPES_SUBTYPES` registry imported from outside this file) are
parameters, as the specification treats them as external.
-/

deriving instance DecidableEq for Except

namespace MindsdbDS

/-- A Python scalar value as it appears in DataFrame cells and filter
predicates.  Numeric values are modelled by `Int` (the source relies on
`pd.to_numeric`; we restrict numeric parsing to integers, which is enough
for every claim). -/
inductive Value where
  | num (n : Int)
  | str (s : String)
deriving DecidableEq, Repr

/-- Python exceptions that the source can raise, by kind.
`invalidSubtype` carries the offending subtype string, as
`ValueError(f'Invalid data subtype: ...')` does. -/
inductive PyErr where
  | assertionError
  | attrError
  | keyError (k : String)
  | valueError
  | typeError
  | parseError
  | backendError
  | invalidSubtype (s : String)
deriving DecidableEq, Repr

/-- A pandas DataFrame: ordered column names and rows of optional cells
(`none` = null/NaN). -/
structure DF where
  cols : List String
  rows : List (List (Option Value))
deriving DecidableEq, Repr

/-- The column map: external column name → internal storage name
(a Python dict, insertion-ordered). -/
abbrev ColMap := List (String × String)

/-- A filter predicate `(column, operator, value)`. -/
abbrev Pred := String × String × Value

/-- A where-clause as built by `DataSource.filter` for `moz_sql_parser`:
`cond opJson col v` embeds the dict `\x7bop_json: [col, value]\x7d`, and
`conj a b` embeds `\x7b'and': [a, b]\x7d` (first operand listed first). -/
inductive Clause where
  | cond (opJson : String) (col : String) (v : Value)
  | conj (first second : Clause)
deriving DecidableEq, Repr

/-- The structured query returned by `moz_sql_parser.parse`:
the `where` entry (absent ↦ `none`), the `limit` entry, and an opaque
remainder (select/from parts, irrelevant to the claims). -/
structure ParsedQuery where
  whereClause : Option Clause
  limit : Option Nat
  rest : String
deriving DecidableEq, Repr

/-- What `DataSource.filter` returns: `self._setup(query=query)` is a
`(df, col_map)` pair, while both the non-`get_col_map` pushdown branch and
the whole fallback branch return a DataFrame alone. -/
inductive FilterResult where
  | pair (d : DF) (cm : ColMap)
  | dfOnly (d : DF)
deriving DecidableEq, Repr

/-- The external collaborators: the concrete subclass `_setup`
(`setup none` is the parameterless materialization, `setup (some q)` the
query-based one), `moz_sql_parser.parse` / `format`, and the
`binary_ops` operator registry. -/
structure Backend where
  setup : Option String → Except PyErr (DF × ColMap)
  parse : String → Except PyErr ParsedQuery
  fmt : ParsedQuery → Except PyErr String
  binary_ops : String → Option String

/-- The mutable state of a `DataSource` object. -/
structure DataSource where
  data_types : List (String × String)
  data_subtypes : List (String × String)
  internal_df : Option DF
  internal_col_map : Option ColMap
  is_sql : Bool
  query : Option String
deriving DecidableEq, Repr

/-- `DataSource.__init__(self, sql_query)`. -/
def DataSource.mk_init (sql_query : Option String) : DataSource :=
  { data_types := []
    data_subtypes := []
    internal_df := none
    internal_col_map := none
    is_sql := sql_query.isSome
    query := sql_query }

/-- Python `str.lower()` (ASCII). -/
def py_lower (s : String) : String :=
  String.mk (s.toList.map Char.toLower)

/-- Python `str.replace(c, r)` for one-character patterns. -/
def replace_char (s : String) (c r : Char) : String :=
  String.mk (s.toList.map (fun x => if x = c then r else x))

/-- Python `str.replace(c, '')` for one-character patterns. -/
def remove_char (s : String) (c : Char) : String :=
  String.mk (s.toList.filter (fun x => !(x = c)))

/-- Decimal digit run to a number (`none` on a non-digit). -/
def parse_digits_aux : List Char → Nat → Option Nat
  | [], acc => some acc
  | c :: cs, acc =>
    if 48 ≤ c.toNat ∧ c.toNat ≤ 57 then
      parse_digits_aux cs (acc * 10 + (c.toNat - 48))
    else
      none

def parse_digits : List Char → Option Nat
  | [] => none
  | cs => parse_digits_aux cs 0

/-- Integer parsing for string cells, as `pd.to_numeric` accepts them
(restricted to optionally-signed decimal integers). -/
def py_parse_int (s : String) : Option Int :=
  match s.toList with
  | '-' :: ds => (parse_digits ds).map (fun n => -(n : Int))
  | ds => (parse_digits ds).map (fun n => (n : Int))

/-- Python `str.strip('%')`: remove leading and trailing runs of `%`. -/
def strip_percent (s : String) : String :=
  String.mk (((s.toList.dropWhile (· = '%')).reverse.dropWhile (· = '%')).reverse)

/-- Python `str(val)`. -/
def py_str : Value → String
  | .num n => toString n
  | .str s => s

/-- `pd.to_numeric(·, errors='coerce')` on a single cell: numbers stay,
numeric-looking strings parse, everything else coerces to NaN (`none`). -/
def to_numeric : Value → Option Int
  | .num n => some n
  | .str s => py_parse_int s

/-- Does the list start with the pattern? -/
def list_starts_with : List Char → List Char → Bool
  | _, [] => true
  | [], _ :: _ => false
  | c :: cs, p :: ps => (c = p) && list_starts_with cs ps

/-- Does the pattern occur as a contiguous sublist? -/
def list_contains_sub (pat : List Char) : List Char → Bool
  | [] =>
    match pat with
    | [] => true
    | _ :: _ => false
  | c :: cs => list_starts_with (c :: cs) pat || list_contains_sub pat cs

/-- Substring containment, as used by `Series.str.contains` on the plain
(wildcard-stripped) patterns the source passes it. -/
def str_contains (s pat : String) : Bool :=
  list_contains_sub pat.toList s.toList

/-- Python dict lookup on an association list. -/
def lookup_assoc (m : List (String × String)) (k : String) : Option String :=
  (m.find? (fun p => p.1 == k)).map (·.2)

/-- Python `k in dict` (key membership). -/
def keys_contain (m : List (String × String)) (k : String) : Bool :=
  m.any (fun p => p.1 == k)

/-- Python `dict[k] = v`: update in place, else append (insertion order). -/
def set_key (m : List (String × String)) (k v : String) : List (String × String) :=
  if m.any (fun p => p.1 == k) then
    m.map (fun p => if p.1 == k then (k, v) else p)
  else
    m ++ [(k, v)]

/-- The for-loop of `set_subtypes` over `DATA_TYPES_SUBTYPES.items()`:
first type category whose subtype list contains `subtype`. -/
def find_type_for (registry : List (String × List String)) (subtype : String) :
    Option String :=
  (registry.find? (fun t => t.2.contains subtype)).map (·.1)

/-- Cell of a row at a column position (out-of-range reads as null; rows
always match `cols` in well-formed frames). -/
def row_cell (idx : Nat) (r : List (Option Value)) : Option Value :=
  match r.get? idx with
  | some c => c
  | none => none

/-- `df.head(n)` for `n ≥ 0`. -/
def df_head (n : Nat) (d : DF) : DF :=
  { d with rows := d.rows.take n }

/-- `df.drop(columns=cs, inplace=True)` after the existence check:
remove the named columns positionally. -/
def df_drop (d : DF) (cs : List String) : DF :=
  { cols := d.cols.filter (fun c => !(cs.contains c))
    rows := d.rows.map (fun r =>
      (((d.cols.zip r).filter (fun cv => !(cs.contains cv.1))).map (·.2))) }

/-- One loop iteration of `DataSource.filter`'s pushdown translator:
lower-case the operator, look it up in `binary_ops` (falling back to the
lower-cased operator itself), wrap a `like` value in `%` wildcards
(`value.strip('%')` raises `AttributeError` on a non-string value), and
build the single-condition clause. -/
def clause_of (bops : String → Option String) : Pred → Except PyErr Clause
  | (col, op0, value) =>
    let op := py_lower op0
    let opJson := match bops op with
      | some j => j
      | none => op
    let v0 : Except PyErr Value :=
      if op == "like" then
        match value with
        | .str s => .ok (.str ("%" ++ strip_percent s ++ "%"))
        | .num _ => .error .attrError
      else
        .ok value
    match v0 with
    | .error e => .error e
    | .ok v => .ok (.cond opJson col v)

/-- The predicate loop of the pushdown translator: each new clause is
combined with the previously accumulated where-clause (when non-empty)
as `\x7b'and': [where_clause, past_where_clause]\x7d` — newest first. -/
def build_where (bops : String → Option String) :
    Option Clause → List Pred → Except PyErr (Option Clause)
  | past, [] => .ok past
  | past, p :: ps =>
    match clause_of bops p with
    | .error e => .error e
    | .ok c =>
      let w := match past with
        | some pc => Clause.conj c pc
        | none => c
      build_where bops (some w) ps

/-- The `try:` block of `DataSource.filter`: assert the source is
query-backed, parse the base query, fold the predicates into the
where-clause, set the limit when given (`limit is not None`), serialize,
rewrite double quotes to single quotes, and run `_setup(query=...)`.
Pure: the pushdown path never touches the object state. -/
def DataSource.try_pushdown (be : Backend) (ds : DataSource) (wh : List Pred)
    (lim : Option Nat) (get_col_map : Bool) : Except PyErr FilterResult :=
  if ds.is_sql then
    match ds.query with
    | none => .error .typeError
    | some q =>
      match be.parse q with
      | .error e => .error e
      | .ok pq =>
        match build_where be.binary_ops pq.whereClause wh with
        | .error e => .error e
        | .ok w =>
          let pq := { pq with whereClause := w }
          let pq := match lim with
            | some n => { pq with limit := some n }
            | none => pq
          match be.fmt pq with
          | .error e => .error e
          | .ok s =>
            let s := replace_char s (Char.ofNat 34) (Char.ofNat 39)
            match be.setup (some s) with
            | .error e => .error e
            | .ok (d, cm) =>
              if get_col_map then .ok (.pair d cm) else .ok (.dfOnly d)
  else
    .error .assertionError

/-- `DataSource._filter_df(raw_condition, df)`: drop null rows in the
column first, then dispatch on the lower-cased operator.  Branches that
pandas can only answer by raising (ordering a numeric coercion against a
string value, `.str.contains` over non-string cells) return the matching
error. -/
def DataSource._filter_df (raw_condition : Pred) (d : DF) : Except PyErr DF :=
  match raw_condition with
  | (col, cond0, val) =>
    let cond := py_lower cond0
    match d.cols.findIdx? (fun c => c == col) with
    | none => .error (.keyError col)
    | some idx =>
      let d := { d with rows := d.rows.filter (fun r => (row_cell idx r).isSome) }
      if cond == ">" then
        match val with
        | .num n => .ok { d with rows := d.rows.filter (fun r =>
            match (row_cell idx r).bind to_numeric with
            | some m => decide (n < m)
            | none => false) }
        | .str _ => .error .typeError
      else if cond == "<" then
        match val with
        | .num n => .ok { d with rows := d.rows.filter (fun r =>
            match (row_cell idx r).bind to_numeric with
            | some m => decide (m < n)
            | none => false) }
        | .str _ => .error .typeError
      else if cond == "like" then
        let pat := remove_char (py_str val) (Char.ofNat 37)
        if d.rows.all (fun r =>
            match row_cell idx r with
            | some (.str _) => true
            | _ => false) then
          .ok { d with rows := d.rows.filter (fun r =>
            match row_cell idx r with
            | some (.str s) => str_contains s pat
            | _ => false) }
        else
          .error .valueError
      else if cond == "=" then
        .ok { d with rows := d.rows.filter (fun r =>
          match row_cell idx r with
          | some c => c == val || c == .str (py_str val)
          | none => false) }
      else if cond == "!=" then
        .ok { d with rows := d.rows.filter (fun r =>
          match row_cell idx r with
          | some c => !(c == val) && !(c == .str (py_str val))
          | none => false) }
      else
        .ok d

/-- The fallback's `for cond in where: df = self._filter_df(cond, df)`. -/
def apply_conds : List Pred → DF → Except PyErr DF
  | [], d => .ok d
  | p :: ps, d =>
    match DataSource._filter_df p d with
    | .error e => .error e
    | .ok d' => apply_conds ps d'

/-- The `df` property: on first read materialize via the parameterless
`_setup`, caching rows and column map together; a raise leaves the state
untouched. -/
def DataSource.df_get (be : Backend) (ds : DataSource) :
    Except PyErr DF × DataSource :=
  match ds.internal_df with
  | some d => (.ok d, ds)
  | none =>
    match be.setup none with
    | .ok (d, cm) =>
      (.ok d, { ds with internal_df := some d, internal_col_map := some cm })
    | .error e => (.error e, ds)

/-- The `except:` block of `DataSource.filter`: materialize `self.df`
(failures here propagate), apply each predicate in order, then
`df.head(limit) if limit else df` — Python truthiness, so `limit = 0`
returns the untruncated result. -/
def DataSource.fallback_filter (be : Backend) (ds : DataSource)
    (wh : List Pred) (lim : Option Nat) : Except PyErr FilterResult × DataSource :=
  match DataSource.df_get be ds with
  | (.error e, ds1) => (.error e, ds1)
  | (.ok d, ds1) =>
    match apply_conds wh d with
    | .error e => (.error e, ds1)
    | .ok d' =>
      let res := match lim with
        | some (n + 1) => df_head (n + 1) d'
        | _ => d'
      (.ok (.dfOnly res), ds1)

/-- `DataSource.filter(where, limit, get_col_map)`: attempt the pushdown,
and on any exception fall back to in-memory filtering.  The fallback
ignores `get_col_map` and returns the DataFrame alone. -/
def DataSource.filter (be : Backend) (ds : DataSource) (wh : List Pred)
    (lim : Option Nat) (get_col_map : Bool) : Except PyErr FilterResult × DataSource :=
  match DataSource.try_pushdown be ds wh lim get_col_map with
  | .ok r => (.ok r, ds)
  | .error _ => DataSource.fallback_filter be ds wh lim

/-- The `_col_map` property: when unset, a query-backed source runs the
`filter(where=[], limit=1, get_col_map=True)` probe and stores only the
returned column map, while a non-query-backed source materializes rows
and map together.  When the probe falls back it returns a bare DataFrame
and the source tuple-unpacks it: that raises `ValueError` unless the
frame happens to have exactly two columns (in which case a non-dict value
is stored); we model the branch as the raise — no claim depends on the
two-column accident. -/
def DataSource.col_map_get (be : Backend) (ds : DataSource) :
    Except PyErr ColMap × DataSource :=
  match ds.internal_col_map with
  | some cm => (.ok cm, ds)
  | none =>
    if ds.is_sql then
      match DataSource.filter be ds [] (some 1) true with
      | (.ok (.pair _ cm), ds1) => (.ok cm, { ds1 with internal_col_map := some cm })
      | (.ok (.dfOnly _), ds1) => (.error .valueError, ds1)
      | (.error e, ds1) => (.error e, ds1)
    else
      match be.setup none with
      | .ok (d, cm) =>
        (.ok cm, { ds with internal_df := some d, internal_col_map := some cm })
      | .error e => (.error e, ds)

/-- The name-resolution loop of `drop_columns`: each iteration reads the
`_col_map` property (so the first one may trigger the lazy probe),
mapping a name through the map when present and keeping it verbatim
otherwise. -/
def DataSource.resolve_drop_cols (be : Backend) (ds : DataSource) :
    List String → Except PyErr (List String) × DataSource
  | [] => (.ok [], ds)
  | col :: rest =>
    match DataSource.col_map_get be ds with
    | (.error e, ds1) => (.error e, ds1)
    | (.ok cm, ds1) =>
      let r := match lookup_assoc cm col with
        | some v => v
        | none => col
      match DataSource.resolve_drop_cols be ds1 rest with
      | (.ok rs, ds2) => (.ok (r :: rs), ds2)
      | (.error e, ds2) => (.error e, ds2)

/-- `DataSource.drop_columns(column_list)`: resolve the names, then
`self._internal_df.drop(columns=..., inplace=True)` — an `AttributeError`
when `_internal_df` is still `None`, a `KeyError` when a resolved label is
missing from the frame, and an in-place column removal otherwise. -/
def DataSource.drop_columns (be : Backend) (ds : DataSource)
    (column_list : List String) : Except PyErr Unit × DataSource :=
  match DataSource.resolve_drop_cols be ds column_list with
  | (.error e, ds1) => (.error e, ds1)
  | (.ok columns_to_drop, ds1) =>
    match ds1.internal_df with
    | none => (.error .attrError, ds1)
    | some d =>
      if columns_to_drop.all (fun c => d.cols.contains c) then
        (.ok (), { ds1 with internal_df := some (df_drop d columns_to_drop) })
      else
        (.error (.keyError (match columns_to_drop.find? (fun c => !(d.cols.contains c)) with
          | some c => c
          | none => "")), ds1)

/-- `DataSource.set_subtypes(data_subtypes)`: for each pair, read the
`_col_map` property; skip (with a warning, returned as the third
component) when the column is absent from the map; otherwise search
`DATA_TYPES_SUBTYPES` for a category containing the subtype, recording
type and subtype on success and raising
`ValueError('Invalid data subtype: ...')` when no category matches.
Recordings made before a raise persist, as in Python. -/
def DataSource.set_subtypes (be : Backend)
    (DATA_TYPES_SUBTYPES : List (String × List String)) (ds : DataSource) :
    List (String × String) → Except PyErr Unit × DataSource × List (String × String)
  | [] => (.ok (), ds, [])
  | (col, subtype) :: rest =>
    match DataSource.col_map_get be ds with
    | (.error e, ds1) => (.error e, ds1, [])
    | (.ok cm, ds1) =>
      if keys_contain cm col then
        match find_type_for DATA_TYPES_SUBTYPES subtype with
        | some type_ =>
          let ds2 := { ds1 with
            data_types := set_key ds1.data_types col type_
            data_subtypes := set_key ds1.data_subtypes col subtype }
          DataSource.set_subtypes be DATA_TYPES_SUBTYPES ds2 rest
        | none => (.error (.invalidSubtype subtype), ds1, [])
      else
        match DataSource.set_subtypes be DATA_TYPES_SUBTYPES ds1 rest with
        | (r, ds2, warns) => (r, ds2, (col, subtype) :: warns)

/-- The public operations named by the materialization invariant. -/
inductive Op where
  | read_rows
  | read_col_map
  | filter_op (wh : List Pred) (lim : Option Nat) (get_col_map : Bool)
  | drop_columns_op (names : List String)
  | set_subtypes_op (reg : List (String × List String)) (pairs : List (String × String))

/-- Final object state after one public operation. -/
def run_op (be : Backend) (ds : DataSource) : Op → DataSource
  | .read_rows => (DataSource.df_get be ds).2
  | .read_col_map => (DataSource.col_map_get be ds).2
  | .filter_op wh lim g => (DataSource.filter be ds wh lim g).2
  | .drop_columns_op names => (DataSource.drop_columns be ds names).2
  | .set_subtypes_op reg pairs => (DataSource.set_subtypes be reg ds pairs).2.1

/-- One side of the pair invariant: whenever the rows table is populated,
the column map is populated too. -/
def rows_cm_inv (ds : DataSource) : Prop :=
  ds.internal_df.isSome = true → ds.internal_col_map.isSome = true

/-- Whether a filter result is the `(rows, columnMap)` pair. -/
def is_pair_res : FilterResult → Bool
  | .pair _ _ => true
  | .dfOnly _ => false

/-- Whether an `Except` computation succeeded. -/
def ex_ok {ε α : Type} : Except ε α → Bool
  | .ok _ => true
  | .error _ => false

/-! ## Lemmas about the pushdown where-clause fold -/

lemma build_where_append (bops : String → Option String) (past : Option Clause)
    (l1 l2 : List Pred) :
    build_where bops past (l1 ++ l2) =
      match build_where bops past l1 with
      | .ok w1 => build_where bops w1 l2
      | .error e => .error e := by
  induction l1 generalizing past with
  | nil => simp [build_where]
  | cons p ps ih =>
    simp only [List.cons_append, build_where]
    cases clause_of bops p with
    | error e => rfl
    | ok c => exact ih _

lemma build_where_isSome (bops : String → Option String) (x : Clause)
    (ps : List Pred) (w : Option Clause)
    (h : build_where bops (some x) ps = .ok w) : w.isSome := by
  induction ps generalizing x with
  | nil =>
    simp only [build_where] at h
    cases h
    rfl
  | cons p ps ih =>
    simp only [build_where] at h
    cases hc : clause_of bops p with
    | error e => rw [hc] at h; cases h
    | ok c => rw [hc] at h; exact ih _ h

lemma build_where_ne_nil_some (bops : String → Option String) (past : Option Clause)
    (ps : List Pred) (w : Option Clause)
    (hps : ps ≠ [])
    (h : build_where bops past ps = .ok w) : ∃ r, w = some r := by
  cases ps with
  | nil => exact absurd rfl hps
  | cons p ps =>
    simp only [build_where] at h
    cases hc : clause_of bops p with
    | error e => rw [hc] at h; cases h
    | ok c =>
      rw [hc] at h
      have := build_where_isSome bops _ ps w h
      cases w with
      | none => cases this
      | some r => exact ⟨r, rfl⟩

/-- C4: in the pushdown translator, a predicate list ending in `p` (with at
least one earlier predicate) folds to a where-clause whose outermost AND
lists `p`'s single-condition clause first and the accumulated clause of the
earlier predicates second. -/
theorem build_where_newest_first (bops : String → Option String) (past : Option Clause)
    (ps : List Pred) (p : Pred) (w : Clause)
    (hps : ps ≠ [])
    (h : build_where bops past (ps ++ [p]) = .ok (some w)) :
    ∃ c r, clause_of bops p = .ok c ∧
      build_where bops past ps = .ok (some r) ∧ w = .conj c r := by
  rw [build_where_append] at h
  cases hbw : build_where bops past ps with
  | error e => rw [hbw] at h; cases h
  | ok w1 =>
    rw [hbw] at h
    obtain ⟨r, rfl⟩ := build_where_ne_nil_some bops past ps w1 hps hbw
    simp only [build_where] at h
    cases hc : clause_of bops p with
    | error e => rw [hc] at h; cases h
    | ok c =>
      rw [hc] at h
      simp only [build_where] at h
      cases h
      exact ⟨c, r, rfl, rfl, rfl⟩

/-- C4 witness: the spec's own example — filtering on `("a","=",1)` then
`("b",">",5)` nests the `b` condition as the outer AND's first operand. -/
theorem build_where_newest_first_witness :
    ([(("a" : String), ("=" : String), Value.num 1)] ≠ [] ∧
      build_where (fun s => if s = "=" then some "eq" else if s = ">" then some "gt" else none)
        none ([("a", "=", Value.num 1)] ++ [("b", ">", Value.num 5)]) =
        .ok (some (.conj (.cond "gt" "b" (.num 5)) (.cond "eq" "a" (.num 1))))) ∧
    ∃ c r,
      clause_of (fun s => if s = "=" then some "eq" else if s = ">" then some "gt" else none)
          ("b", ">", Value.num 5) = .ok c ∧
        build_where (fun s => if s = "=" then some "eq" else if s = ">" then some "gt" else none)
          none [("a", "=", Value.num 1)] = .ok (some r) ∧
        Clause.conj (.cond "gt" "b" (.num 5)) (.cond "eq" "a" (.num 1)) = .conj c r :=
  ⟨⟨by decide, by decide⟩,
    build_where_newest_first _ none [("a", "=", Value.num 1)] ("b", ">", Value.num 5) _
      (by decide) (by decide)⟩

/-! ## The in-memory fallback evaluator -/

/-- C5 counterexample: on a one-row table whose only cell is null, a
predicate with the unknown operator `foo` does *not* pass the table
through unchanged — the null row is removed by the unconditional
`df[df[col].notnull()]` step that precedes the operator dispatch. -/
theorem filter_df_unknown_op_cex :
    DataSource._filter_df ("a", "foo", Value.num 1)
        { cols := ["a"], rows := [[none]] } =
      .ok { cols := ["a"], rows := [] } ∧
    ({ cols := ["a"], rows := [] } : DF) ≠ { cols := ["a"], rows := [[none]] } :=
  ⟨by decide, by decide⟩

/-- C5 (amended): for a predicate whose lower-cased operator is outside
`\x7b>, <, like, =, !=\x7d` and whose column exists, the fallback evaluator
returns the input rows with exactly the null-celled rows removed — no
comparison applied, no error raised. -/
theorem filter_df_unknown_op (col op : String) (v : Value) (d : DF) (idx : Nat)
    (hidx : d.cols.findIdx? (fun c => c == col) = some idx)
    (hop : py_lower op ∉ ([">", "<", "like", "=", "!="] : List String)) :
    DataSource._filter_df (col, op, v) d =
      .ok { d with rows := d.rows.filter (fun r => (row_cell idx r).isSome) } := by
  simp only [List.mem_cons, List.not_mem_nil, or_false, not_or] at hop
  obtain ⟨h1, h2, h3, h4, h5⟩ := hop
  simp only [DataSource._filter_df, hidx]
  rw [if_neg (by simpa using h1), if_neg (by simpa using h2),
    if_neg (by simpa using h3), if_neg (by simpa using h4),
    if_neg (by simpa using h5)]

/-- C5 witness: a concrete unknown-operator predicate on a two-row table
(one null row) removes exactly the null row. -/
theorem filter_df_unknown_op_witness :
    (({ cols := ["a"], rows := [[none], [some (.num 3)]] } : DF).cols.findIdx?
        (fun c => c == "a") = some 0 ∧
      py_lower "In" ∉ ([">", "<", "like", "=", "!="] : List String)) ∧
    DataSource._filter_df ("a", "In", Value.num 1)
        { cols := ["a"], rows := [[none], [some (.num 3)]] } =
      .ok { cols := ["a"],
            rows := ([[none], [some (.num 3)]] : List (List (Option Value))).filter
              (fun r => (row_cell 0 r).isSome) } :=
  ⟨⟨by decide, by decide⟩,
    filter_df_unknown_op "a" "In" (Value.num 1)
      { cols := ["a"], rows := [[none], [some (.num 3)]] } 0 (by decide) (by decide)⟩

/-- C7: every row surviving any fallback predicate application has a
non-null cell in the filtered column — the null exclusion happens before
every comparison, unknown operators included. -/
theorem filter_df_excludes_null (col op : String) (v : Value) (d out : DF)
    (idx : Nat)
    (hidx : d.cols.findIdx? (fun c => c == col) = some idx)
    (h : DataSource._filter_df (col, op, v) d = .ok out) :
    ∀ r ∈ out.rows, (row_cell idx r).isSome = true := by
  simp only [DataSource._filter_df, hidx] at h
  intro r hr
  split at h
  · cases v with
    | num n =>
      cases h
      exact (List.mem_filter.mp (List.mem_filter.mp hr).1).2
    | str s => cases h
  · split at h
    · cases v with
      | num n =>
        cases h
        exact (List.mem_filter.mp (List.mem_filter.mp hr).1).2
      | str s => cases h
    · split at h
      · split at h
        · cases h
          exact (List.mem_filter.mp (List.mem_filter.mp hr).1).2
        · cases h
      · split at h
        · cases h
          exact (List.mem_filter.mp (List.mem_filter.mp hr).1).2
        · split at h
          · cases h
            exact (List.mem_filter.mp (List.mem_filter.mp hr).1).2
          · cases h
            exact (List.mem_filter.mp hr).2

/-- C7 witness: a concrete `!=` predicate keeps the non-null, non-matching
row and its surviving row is indeed non-null in the filtered column. -/
theorem filter_df_excludes_null_witness :
    (({ cols := ["a"], rows := [[none], [some (.num 3)], [some (.num 1)]] } : DF).cols.findIdx?
        (fun c => c == "a") = some 0 ∧
      DataSource._filter_df ("a", "!=", Value.num 1)
          { cols := ["a"], rows := [[none], [some (.num 3)], [some (.num 1)]] } =
        .ok { cols := ["a"], rows := [[some (.num 3)]] }) ∧
    ∀ r ∈ ({ cols := ["a"], rows := [[some (.num 3)]] } : DF).rows,
      (row_cell 0 r).isSome = true :=
  ⟨⟨by decide, by decide⟩,
    filter_df_excludes_null "a" "!=" (Value.num 1)
      { cols := ["a"], rows := [[none], [some (.num 3)], [some (.num 1)]] }
      { cols := ["a"], rows := [[some (.num 3)]] } 0 (by decide) (by decide)⟩

/-! ## Filtering on a non-query-backed source -/

lemma try_pushdown_not_sql (be : Backend) (ds : DataSource) (wh : List Pred)
    (lim : Option Nat) (g : Bool) (hsql : ds.is_sql = false) :
    DataSource.try_pushdown be ds wh lim g = .error .assertionError := by
  simp [DataSource.try_pushdown, hsql]

lemma filter_not_sql (be : Backend) (ds : DataSource) (wh : List Pred)
    (lim : Option Nat) (g : Bool) (hsql : ds.is_sql = false) :
    DataSource.filter be ds wh lim g = DataSource.fallback_filter be ds wh lim := by
  simp [DataSource.filter, try_pushdown_not_sql be ds wh lim g hsql]

/-- C2 (amended): on a non-query-backed source, filtering with a nonzero
limit returns exactly the unlimited filtered result truncated to the
first `limit` rows, and the whole call is the in-memory fallback (the
pushdown machinery contributes nothing). -/
theorem filter_limit_truncates (be : Backend) (ds : DataSource) (wh : List Pred)
    (n : Nat) (d : DF) (hsql : ds.is_sql = false)
    (h : (DataSource.filter be ds wh none false).1 = .ok (.dfOnly d)) :
    (DataSource.filter be ds wh (some (n + 1)) false).1 =
        .ok (.dfOnly (df_head (n + 1) d)) ∧
      DataSource.filter be ds wh (some (n + 1)) false =
        DataSource.fallback_filter be ds wh (some (n + 1)) := by
  rw [filter_not_sql be ds wh none false hsql] at h
  refine ⟨?_, filter_not_sql be ds wh (some (n + 1)) false hsql⟩
  rw [filter_not_sql be ds wh (some (n + 1)) false hsql]
  simp only [DataSource.fallback_filter] at h ⊢
  revert h
  rcases DataSource.df_get be ds with ⟨rg, ds1⟩
  cases rg with
  | error e => intro h; simp at h
  | ok d0 =>
    intro h
    dsimp only at h ⊢
    cases hac : apply_conds wh d0 with
    | error e => simp_all
    | ok d' => simp_all

/-- C2 counterexample: with `limit = 0` the fallback's Python-truthiness
test `if limit` is false, so the full two-row result is returned instead
of its first zero rows. -/
theorem filter_limit_zero_cex :
    (DataSource.filter
        { setup := fun _ => .ok ({ cols := ["a"], rows := [[some (.num 1)], [some (.num 2)]] },
            [("a", "a")])
          parse := fun _ => .error .parseError
          fmt := fun _ => .error .parseError
          binary_ops := fun _ => none }
        (DataSource.mk_init none) [] (some 0) false).1 =
      .ok (.dfOnly { cols := ["a"], rows := [[some (.num 1)], [some (.num 2)]] }) ∧
    ([[some (Value.num 1)], [some (Value.num 2)]] : List (List (Option Value))).take 0 ≠
      [[some (Value.num 1)], [some (Value.num 2)]] :=
  ⟨by decide, by decide⟩

/-- C2 witness: on a concrete two-row non-query-backed source,
`filter([], limit=1)` is the first row of `filter([])`, via the fallback. -/
theorem filter_limit_truncates_witness :
    ((DataSource.mk_init none).is_sql = false ∧
      (DataSource.filter
          { setup := fun _ => .ok ({ cols := ["a"], rows := [[some (.num 1)], [some (.num 2)]] },
              [("a", "a")])
            parse := fun _ => .error .parseError
            fmt := fun _ => .error .parseError
            binary_ops := fun _ => none }
          (DataSource.mk_init none) [] none false).1 =
        .ok (.dfOnly { cols := ["a"], rows := [[some (.num 1)], [some (.num 2)]] })) ∧
    (DataSource.filter
        { setup := fun _ => .ok ({ cols := ["a"], rows := [[some (.num 1)], [some (.num 2)]] },
            [("a", "a")])
          parse := fun _ => .error .parseError
          fmt := fun _ => .error .parseError
          binary_ops := fun _ => none }
        (DataSource.mk_init none) [] (some 1) false).1 =
        .ok (.dfOnly (df_head 1 { cols := ["a"], rows := [[some (.num 1)], [some (.num 2)]] })) ∧
      DataSource.filter
          { setup := fun _ => .ok ({ cols := ["a"], rows := [[some (.num 1)], [some (.num 2)]] },
              [("a", "a")])
            parse := fun _ => .error .parseError
            fmt := fun _ => .error .parseError
            binary_ops := fun _ => none }
          (DataSource.mk_init none) [] (some 1) false =
        DataSource.fallback_filter
          { setup := fun _ => .ok ({ cols := ["a"], rows := [[some (.num 1)], [some (.num 2)]] },
              [("a", "a")])
            parse := fun _ => .error .parseError
            fmt := fun _ => .error .parseError
            binary_ops := fun _ => none }
          (DataSource.mk_init none) [] (some 1) :=
  ⟨⟨by decide, by decide⟩,
    filter_limit_truncates _ (DataSource.mk_init none) [] 0
      { cols := ["a"], rows := [[some (.num 1)], [some (.num 2)]] }
      (by decide) (by decide)⟩

/-! ## The shape of filter results -/

lemma fallback_filter_dfOnly (be : Backend) (ds : DataSource) (wh : List Pred)
    (lim : Option Nat) (r : FilterResult)
    (h : (DataSource.fallback_filter be ds wh lim).1 = .ok r) :
    ∃ d, r = .dfOnly d := by
  simp only [DataSource.fallback_filter] at h
  split at h
  · exact absurd h (by simp)
  · split at h
    · exact absurd h (by simp)
    · exact ⟨_, (Except.ok.inj h).symm⟩

lemma try_pushdown_shape (be : Backend) (ds : DataSource) (wh : List Pred)
    (lim : Option Nat) (g : Bool) (r : FilterResult)
    (h : DataSource.try_pushdown be ds wh lim g = .ok r) :
    is_pair_res r = g := by
  simp only [DataSource.try_pushdown] at h
  repeat' split at h
  all_goals try cases h
  all_goals simp_all [is_pair_res]

/-- C3 (amended): a successful `filter` call returns the `(rows,
columnMap)` pair exactly when `get_col_map` was requested *and* the
pushdown succeeded; whenever the fallback produced the result, the rows
are returned alone even in `get_col_map` mode. -/
theorem filter_result_shape (be : Backend) (ds : DataSource) (wh : List Pred)
    (lim : Option Nat) (gcm : Bool) (r : FilterResult)
    (h : (DataSource.filter be ds wh lim gcm).1 = .ok r) :
    is_pair_res r = (gcm && ex_ok (DataSource.try_pushdown be ds wh lim gcm)) := by
  cases htp : DataSource.try_pushdown be ds wh lim gcm with
  | ok r0 =>
    have : (DataSource.filter be ds wh lim gcm).1 = .ok r0 := by
      simp [DataSource.filter, htp]
    rw [this] at h
    cases h
    rw [try_pushdown_shape be ds wh lim gcm r htp]
    simp [ex_ok]
  | error e =>
    have hfb : DataSource.filter be ds wh lim gcm =
        DataSource.fallback_filter be ds wh lim := by
      simp [DataSource.filter, htp]
    rw [hfb] at h
    obtain ⟨d, rfl⟩ := fallback_filter_dfOnly be ds wh lim r h
    simp [is_pair_res, ex_ok]

/-- C3 counterexample: on a non-query-backed source the pushdown fails and
the fallback answers a `get_col_map = true` call with the rows alone — the
claimed `(rows, columnMap)` pair shape does not hold for this outcome. -/
theorem filter_shape_fallback_cex :
    ((DataSource.filter
        { setup := fun _ => .ok ({ cols := ["a"], rows := [[some (.num 1)], [some (.num 2)]] },
            [("a", "a")])
          parse := fun _ => .error .parseError
          fmt := fun _ => .error .parseError
          binary_ops := fun _ => none }
        (DataSource.mk_init none) [] none true).1.map is_pair_res) = .ok false :=
  by decide

/-- C3 witness: the amended shape equation instantiated at a concrete
fall-back call in `get_col_map` mode. -/
theorem filter_result_shape_witness :
    ((DataSource.filter
        { setup := fun _ => .ok ({ cols := ["b"], rows := [[some (.num 7)]] }, [("b", "b")])
          parse := fun _ => .error .parseError
          fmt := fun _ => .error .parseError
          binary_ops := fun _ => none }
        (DataSource.mk_init none) [] none true).1 =
      .ok (.dfOnly { cols := ["b"], rows := [[some (.num 7)]] })) ∧
    is_pair_res (.dfOnly { cols := ["b"], rows := [[some (.num 7)]] }) =
      (true && ex_ok (DataSource.try_pushdown
        { setup := fun _ => .ok ({ cols := ["b"], rows := [[some (.num 7)]] }, [("b", "b")])
          parse := fun _ => .error .parseError
          fmt := fun _ => .error .parseError
          binary_ops := fun _ => none }
        (DataSource.mk_init none) [] none true)) :=
  ⟨by decide,
    filter_result_shape _ (DataSource.mk_init none) [] none true _ (by decide)⟩

/-! ## Lemmas about `set_subtypes` -/

lemma find?_map_update_ne (m : List (String × String)) (k' v k : String)
    (hne : (k' == k) = false) :
    (m.map (fun p => if p.1 == k' then (k', v) else p)).find? (fun p => p.1 == k) =
      m.find? (fun p => p.1 == k) := by
  induction m with
  | nil => rfl
  | cons q m ih =>
    by_cases hq : (q.1 == k') = true
    · have hq1 : q.1 = k' := by simpa using hq
      simp only [List.map_cons, if_pos hq]
      rw [@List.find?_cons_of_neg _ (fun r => r.1 == k) (k', v) _ (by simp_all),
        @List.find?_cons_of_neg _ (fun r => r.1 == k) q _ (by simp_all)]
      exact ih
    · simp only [List.map_cons, if_neg hq]
      by_cases hqk : (q.1 == k) = true
      · rw [@List.find?_cons_of_pos _ (fun r => r.1 == k) q _ hqk,
          @List.find?_cons_of_pos _ (fun r => r.1 == k) q _ hqk]
      · rw [@List.find?_cons_of_neg _ (fun r => r.1 == k) q _ hqk,
          @List.find?_cons_of_neg _ (fun r => r.1 == k) q _ hqk]
        exact ih

lemma lookup_assoc_set_key_ne (m : List (String × String)) (k' v k : String)
    (hne : k' ≠ k) :
    lookup_assoc (set_key m k' v) k = lookup_assoc m k := by
  have hbne : (k' == k) = false := by simp [hne]
  simp only [set_key, lookup_assoc]
  split
  · rw [find?_map_update_ne m k' v k hbne]
  · rw [List.find?_append]
    cases hm : m.find? (fun p => p.1 == k) with
    | some q => simp
    | none => simp [List.find?, hbne]

lemma set_subtypes_col_map_stable (be : Backend) (reg : List (String × List String))
    (pairs : List (String × String)) :
    ∀ ds : DataSource, ∀ cm : ColMap, ds.internal_col_map = some cm →
      ((DataSource.set_subtypes be reg ds pairs).2.1).internal_col_map = some cm := by
  induction pairs with
  | nil => intro ds cm hcm; simpa [DataSource.set_subtypes]
  | cons p rest ih =>
    intro ds cm hcm
    obtain ⟨col, st⟩ := p
    have hcg : DataSource.col_map_get be ds = (.ok cm, ds) := by
      simp [DataSource.col_map_get, hcm]
    simp only [DataSource.set_subtypes, hcg]
    by_cases hk : keys_contain cm col = true
    · rw [if_pos hk]
      cases hft : find_type_for reg st with
      | some t => simp only [hft]; exact ih _ cm hcm
      | none => simp only [hft]; exact hcm
    · rw [if_neg hk]
      rcases hrest : DataSource.set_subtypes be reg ds rest with ⟨r1, ds2, w1⟩
      have := ih ds cm hcm
      rw [hrest] at this
      exact this

lemma set_subtypes_append (be : Backend) (reg : List (String × List String))
    (l1 l2 : List (String × String)) :
    ∀ ds : DataSource,
      DataSource.set_subtypes be reg ds (l1 ++ l2) =
        match DataSource.set_subtypes be reg ds l1 with
        | (.ok _, ds1, w1) =>
          ((DataSource.set_subtypes be reg ds1 l2).1,
            (DataSource.set_subtypes be reg ds1 l2).2.1,
            w1 ++ (DataSource.set_subtypes be reg ds1 l2).2.2)
        | (.error e, ds1, w1) => (.error e, ds1, w1) := by
  induction l1 with
  | nil =>
    intro ds
    simp [DataSource.set_subtypes]
  | cons p l1 ih =>
    intro ds
    obtain ⟨col, st⟩ := p
    simp only [List.cons_append, DataSource.set_subtypes]
    rcases hcg : DataSource.col_map_get be ds with ⟨rc, ds1⟩
    cases rc with
    | error e => rfl
    | ok cm =>
      dsimp only
      by_cases hk : keys_contain cm col = true
      · rw [if_pos hk, if_pos hk]
        cases hft : find_type_for reg st with
        | some t => exact ih _
        | none => rfl
      · rw [if_neg hk, if_neg hk]
        rw [show l1.append l2 = l1 ++ l2 from rfl, ih ds1]
        rcases h1 : DataSource.set_subtypes be reg ds1 l1 with ⟨r1, ds2, w1⟩
        cases r1 with
        | error e => rfl
        | ok u => cases u; rfl

lemma set_subtypes_unmapped_col_stable (be : Backend)
    (reg : List (String × List String)) (cm : ColMap) (col : String)
    (pairs : List (String × String)) (hcol : keys_contain cm col = false) :
    ∀ ds : DataSource, ds.internal_col_map = some cm →
      lookup_assoc ((DataSource.set_subtypes be reg ds pairs).2.1).data_subtypes col =
        lookup_assoc ds.data_subtypes col := by
  induction pairs with
  | nil => intro ds hcm; simp [DataSource.set_subtypes]
  | cons p rest ih =>
    intro ds hcm
    obtain ⟨c, s⟩ := p
    have hcg : DataSource.col_map_get be ds = (.ok cm, ds) := by
      simp [DataSource.col_map_get, hcm]
    simp only [DataSource.set_subtypes, hcg]
    by_cases hk : keys_contain cm c = true
    · rw [if_pos hk]
      cases hft : find_type_for reg s with
      | some t =>
        simp only [hft]
        have hne : c ≠ col := by
          intro heq
          rw [heq, hcol] at hk
          cases hk
        exact (ih (DataSource.mk (set_key ds.data_types c t) (set_key ds.data_subtypes c s)
            ds.internal_df ds.internal_col_map ds.is_sql ds.query) hcm).trans
          (lookup_assoc_set_key_ne ds.data_subtypes c s col hne)
      | none => simp only [hft]
    · rw [if_neg hk]
      rcases hrest : DataSource.set_subtypes be reg ds rest with ⟨r1, ds2, w1⟩
      have := ih ds hcm
      rw [hrest] at this
      exact this

/-! ## The `set_subtypes` claims -/

/-- C8: when `set_subtypes` reaches a pair whose column is in the column
map but whose subtype belongs to no category of the registry, it raises
`ValueError('Invalid data subtype: ...')` carrying that subtype, and the
recordings made by the earlier pairs of the call (state `ds1`) are kept
exactly as they were. -/
theorem set_subtypes_invalid_raises (be : Backend) (reg : List (String × List String))
    (ds ds1 : DataSource) (w1 : List (String × String)) (cm : ColMap)
    (pre rest : List (String × String)) (col st : String)
    (hcm : ds.internal_col_map = some cm)
    (hpre : DataSource.set_subtypes be reg ds pre = (.ok (), ds1, w1))
    (hcol : keys_contain cm col = true)
    (hst : find_type_for reg st = none) :
    DataSource.set_subtypes be reg ds (pre ++ (col, st) :: rest) =
      (.error (.invalidSubtype st), ds1, w1) := by
  have hcm1 : ds1.internal_col_map = some cm := by
    have h := set_subtypes_col_map_stable be reg pre ds cm hcm
    rw [hpre] at h
    exact h
  have hcg : DataSource.col_map_get be ds1 = (.ok cm, ds1) := by
    simp [DataSource.col_map_get, hcm1]
  have hx : DataSource.set_subtypes be reg ds1 ((col, st) :: rest) =
      (.error (.invalidSubtype st), ds1, []) := by
    simp only [DataSource.set_subtypes, hcg]
    rw [if_pos hcol]
    simp only [hst]
  rw [set_subtypes_append be reg pre ((col, st) :: rest) ds, hpre]
  dsimp only
  rw [hx]
  simp

/-- C8 witness: a two-category run where the second pair declares an
unregistered subtype for a mapped column; the call raises
`invalidSubtype "Bogus"` and the first pair's recording survives. -/
theorem set_subtypes_invalid_raises_witness :
    (({ DataSource.mk_init none with
          internal_col_map := some [("x", "x")] } : DataSource).internal_col_map =
        some [("x", "x")] ∧
      DataSource.set_subtypes
          { setup := fun _ => .error .backendError
            parse := fun _ => .error .parseError
            fmt := fun _ => .error .parseError
            binary_ops := fun _ => none }
          [("Numeric", ["Int"])]
          { DataSource.mk_init none with internal_col_map := some [("x", "x")] }
          [("x", "Int")] =
        (.ok (), { DataSource.mk_init none with
            data_types := [("x", "Numeric")]
            data_subtypes := [("x", "Int")]
            internal_col_map := some [("x", "x")] }, []) ∧
      keys_contain [("x", "x")] "x" = true ∧
      find_type_for [("Numeric", ["Int"])] "Bogus" = none) ∧
    DataSource.set_subtypes
        { setup := fun _ => .error .backendError
          parse := fun _ => .error .parseError
          fmt := fun _ => .error .parseError
          binary_ops := fun _ => none }
        [("Numeric", ["Int"])]
        { DataSource.mk_init none with internal_col_map := some [("x", "x")] }
        ([("x", "Int")] ++ ("x", "Bogus") :: [("y", "Int")]) =
      (.error (.invalidSubtype "Bogus"),
        { DataSource.mk_init none with
            data_types := [("x", "Numeric")]
            data_subtypes := [("x", "Int")]
            internal_col_map := some [("x", "x")] }, []) :=
  ⟨⟨by decide, by decide, by decide, by decide⟩,
    set_subtypes_invalid_raises _ [("Numeric", ["Int"])]
      { DataSource.mk_init none with internal_col_map := some [("x", "x")] }
      { DataSource.mk_init none with
          data_types := [("x", "Numeric")]
          data_subtypes := [("x", "Int")]
          internal_col_map := some [("x", "x")] }
      [] [("x", "x")] [("x", "Int")] [("y", "Int")] "x" "Bogus"
      (by decide) (by decide) (by decide) (by decide)⟩

/-- C9: a pair whose column is absent from the column map is skipped with
a warning — the call behaves exactly as it would on the remaining pairs,
with the skipped pair recorded as a warning, and the declared subtype of
that column is unchanged by the whole call. -/
theorem set_subtypes_unknown_column_skips (be : Backend)
    (reg : List (String × List String)) (ds : DataSource) (cm : ColMap)
    (col st : String) (rest : List (String × String))
    (hcm : ds.internal_col_map = some cm)
    (hcol : keys_contain cm col = false) :
    DataSource.set_subtypes be reg ds ((col, st) :: rest) =
      ((DataSource.set_subtypes be reg ds rest).1,
        (DataSource.set_subtypes be reg ds rest).2.1,
        (col, st) :: (DataSource.set_subtypes be reg ds rest).2.2) ∧
    lookup_assoc ((DataSource.set_subtypes be reg ds ((col, st) :: rest)).2.1).data_subtypes
        col =
      lookup_assoc ds.data_subtypes col := by
  have hcg : DataSource.col_map_get be ds = (.ok cm, ds) := by
    simp [DataSource.col_map_get, hcm]
  constructor
  · simp only [DataSource.set_subtypes, hcg]
    rw [if_neg (by simp [hcol])]
  · exact set_subtypes_unmapped_col_stable be reg cm col ((col, st) :: rest) hcol ds hcm

/-- C9 witness: declaring `integer` for an unmapped column `x` raises
nothing, records the warning, and leaves `data_subtypes` at `x`
unchanged. -/
theorem set_subtypes_unknown_column_skips_witness :
    (({ DataSource.mk_init none with
          internal_col_map := some [("a", "a")] } : DataSource).internal_col_map =
        some [("a", "a")] ∧
      keys_contain [("a", "a")] "x" = false) ∧
    (DataSource.set_subtypes
        { setup := fun _ => .error .backendError
          parse := fun _ => .error .parseError
          fmt := fun _ => .error .parseError
          binary_ops := fun _ => none }
        [("Numeric", ["integer"])]
        { DataSource.mk_init none with internal_col_map := some [("a", "a")] }
        [("x", "integer")] =
      ((DataSource.set_subtypes
          { setup := fun _ => .error .backendError
            parse := fun _ => .error .parseError
            fmt := fun _ => .error .parseError
            binary_ops := fun _ => none }
          [("Numeric", ["integer"])]
          { DataSource.mk_init none with internal_col_map := some [("a", "a")] } []).1,
        (DataSource.set_subtypes
          { setup := fun _ => .error .backendError
            parse := fun _ => .error .parseError
            fmt := fun _ => .error .parseError
            binary_ops := fun _ => none }
          [("Numeric", ["integer"])]
          { DataSource.mk_init none with internal_col_map := some [("a", "a")] } []).2.1,
        ("x", "integer") :: (DataSource.set_subtypes
          { setup := fun _ => .error .backendError
            parse := fun _ => .error .parseError
            fmt := fun _ => .error .parseError
            binary_ops := fun _ => none }
          [("Numeric", ["integer"])]
          { DataSource.mk_init none with internal_col_map := some [("a", "a")] } []).2.2) ∧
      lookup_assoc ((DataSource.set_subtypes
          { setup := fun _ => .error .backendError
            parse := fun _ => .error .parseError
            fmt := fun _ => .error .parseError
            binary_ops := fun _ => none }
          [("Numeric", ["integer"])]
          { DataSource.mk_init none with internal_col_map := some [("a", "a")] }
          [("x", "integer")]).2.1).data_subtypes "x" =
        lookup_assoc ({ DataSource.mk_init none with
            internal_col_map := some [("a", "a")] } : DataSource).data_subtypes "x") :=
  ⟨⟨by decide, by decide⟩,
    set_subtypes_unknown_column_skips _ [("Numeric", ["integer"])]
      { DataSource.mk_init none with internal_col_map := some [("a", "a")] }
      [("a", "a")] "x" "integer" [] (by decide) (by decide)⟩

/-- C10: membership in the column map is checked before subtype
validation — a pair with an unmapped column and an invalid subtype never
raises `invalidSubtype`; the call's result and final state are those of
the remaining pairs alone. -/
theorem set_subtypes_skip_before_validation (be : Backend)
    (reg : List (String × List String)) (ds : DataSource) (cm : ColMap)
    (col st : String) (rest : List (String × String))
    (hcm : ds.internal_col_map = some cm)
    (hcol : keys_contain cm col = false)
    (_hst : find_type_for reg st = none) :
    (DataSource.set_subtypes be reg ds ((col, st) :: rest)).1 =
        (DataSource.set_subtypes be reg ds rest).1 ∧
      (DataSource.set_subtypes be reg ds ((col, st) :: rest)).2.1 =
        (DataSource.set_subtypes be reg ds rest).2.1 := by
  have hcg : DataSource.col_map_get be ds = (.ok cm, ds) := by
    simp [DataSource.col_map_get, hcm]
  simp only [DataSource.set_subtypes, hcg]
  rw [if_neg (by simp [hcol])]
  rcases h1 : DataSource.set_subtypes be reg ds rest with ⟨r1, ds2, w2⟩
  exact ⟨rfl, rfl⟩

/-- C10 witness: an unmapped column declared with an unregistered subtype
on an otherwise empty pair list — the call returns success, no
`invalidSubtype` is raised. -/
theorem set_subtypes_skip_before_validation_witness :
    (({ DataSource.mk_init none with
          internal_col_map := some [("a", "a")] } : DataSource).internal_col_map =
        some [("a", "a")] ∧
      keys_contain [("a", "a")] "x" = false ∧
      find_type_for [("Numeric", ["Int"])] "Bogus" = none) ∧
    ((DataSource.set_subtypes
        { setup := fun _ => .error .backendError
          parse := fun _ => .error .parseError
          fmt := fun _ => .error .parseError
          binary_ops := fun _ => none }
        [("Numeric", ["Int"])]
        { DataSource.mk_init none with internal_col_map := some [("a", "a")] }
        [("x", "Bogus")]).1 =
      (DataSource.set_subtypes
        { setup := fun _ => .error .backendError
          parse := fun _ => .error .parseError
          fmt := fun _ => .error .parseError
          binary_ops := fun _ => none }
        [("Numeric", ["Int"])]
        { DataSource.mk_init none with internal_col_map := some [("a", "a")] } []).1 ∧
      (DataSource.set_subtypes
        { setup := fun _ => .error .backendError
          parse := fun _ => .error .parseError
          fmt := fun _ => .error .parseError
          binary_ops := fun _ => none }
        [("Numeric", ["Int"])]
        { DataSource.mk_init none with internal_col_map := some [("a", "a")] }
        [("x", "Bogus")]).2.1 =
      (DataSource.set_subtypes
        { setup := fun _ => .error .backendError
          parse := fun _ => .error .parseError
          fmt := fun _ => .error .parseError
          binary_ops := fun _ => none }
        [("Numeric", ["Int"])]
        { DataSource.mk_init none with internal_col_map := some [("a", "a")] } []).2.1) :=
  ⟨⟨by decide, by decide, by decide⟩,
    set_subtypes_skip_before_validation _ [("Numeric", ["Int"])]
      { DataSource.mk_init none with internal_col_map := some [("a", "a")] }
      [("a", "a")] "x" "Bogus" [] (by decide) (by decide) (by decide)⟩

/-! ## The rows/column-map materialization invariant -/

lemma df_get_inv (be : Backend) (ds : DataSource) (h : rows_cm_inv ds) :
    rows_cm_inv (DataSource.df_get be ds).2 := by
  simp only [DataSource.df_get]
  cases hdf : ds.internal_df with
  | some d => exact h
  | none =>
    cases hs : be.setup none with
    | ok p =>
      obtain ⟨d, cm⟩ := p
      intro _
      rfl
    | error e => exact h

lemma fallback_filter_state (be : Backend) (ds : DataSource) (wh : List Pred)
    (lim : Option Nat) :
    (DataSource.fallback_filter be ds wh lim).2 = (DataSource.df_get be ds).2 := by
  simp only [DataSource.fallback_filter]
  rcases DataSource.df_get be ds with ⟨rg, ds1⟩
  cases rg with
  | error e => rfl
  | ok d0 =>
    dsimp only
    cases apply_conds wh d0 with
    | error e => rfl
    | ok d' => rfl

lemma fallback_filter_inv (be : Backend) (ds : DataSource) (wh : List Pred)
    (lim : Option Nat) (h : rows_cm_inv ds) :
    rows_cm_inv (DataSource.fallback_filter be ds wh lim).2 := by
  rw [fallback_filter_state]
  exact df_get_inv be ds h

lemma filter_inv (be : Backend) (ds : DataSource) (wh : List Pred)
    (lim : Option Nat) (g : Bool) (h : rows_cm_inv ds) :
    rows_cm_inv (DataSource.filter be ds wh lim g).2 := by
  simp only [DataSource.filter]
  cases DataSource.try_pushdown be ds wh lim g with
  | ok r => exact h
  | error e => exact fallback_filter_inv be ds wh lim h

lemma col_map_get_inv (be : Backend) (ds : DataSource) (h : rows_cm_inv ds) :
    rows_cm_inv (DataSource.col_map_get be ds).2 := by
  simp only [DataSource.col_map_get]
  cases hcm : ds.internal_col_map with
  | some cm => exact h
  | none =>
    cases hsql : ds.is_sql with
    | true =>
      simp only [if_pos rfl]
      have hf := filter_inv be ds [] (some 1) true h
      rcases hflt : DataSource.filter be ds [] (some 1) true with ⟨rf, ds1⟩
      rw [hflt] at hf
      cases rf with
      | error e => exact hf
      | ok r =>
        cases r with
        | pair d cm =>
          intro _
          rfl
        | dfOnly d => exact hf
    | false =>
      simp only [Bool.false_eq_true, if_false]
      cases be.setup none with
      | ok p =>
        obtain ⟨d, cm⟩ := p
        intro _
        rfl
      | error e => exact h

lemma resolve_drop_cols_inv (be : Backend) (names : List String) :
    ∀ ds : DataSource, rows_cm_inv ds →
      rows_cm_inv (DataSource.resolve_drop_cols be ds names).2 := by
  induction names with
  | nil => intro ds h; exact h
  | cons col rest ih =>
    intro ds h
    simp only [DataSource.resolve_drop_cols]
    have hcg := col_map_get_inv be ds h
    rcases e1 : DataSource.col_map_get be ds with ⟨rc, ds1⟩
    rw [e1] at hcg
    have hcg1 : rows_cm_inv ds1 := hcg
    cases rc with
    | error e => exact hcg1
    | ok cm =>
      dsimp only
      have hrec := ih ds1 hcg1
      rcases e2 : DataSource.resolve_drop_cols be ds1 rest with ⟨rr, ds2⟩
      rw [e2] at hrec
      have hrec2 : rows_cm_inv ds2 := hrec
      cases rr with
      | ok rs => exact hrec2
      | error e => exact hrec2

lemma drop_columns_inv (be : Backend) (ds : DataSource) (names : List String)
    (h : rows_cm_inv ds) :
    rows_cm_inv (DataSource.drop_columns be ds names).2 := by
  simp only [DataSource.drop_columns]
  have hres := resolve_drop_cols_inv be names ds h
  rcases e1 : DataSource.resolve_drop_cols be ds names with ⟨rr, ds1⟩
  rw [e1] at hres
  have hres1 : rows_cm_inv ds1 := hres
  cases rr with
  | error e => exact hres1
  | ok cols =>
    dsimp only
    cases hdf : ds1.internal_df with
    | none => exact hres1
    | some d =>
      have hcm : ds1.internal_col_map.isSome = true := hres1 (by rw [hdf]; rfl)
      dsimp only
      by_cases hall : (cols.all fun c => d.cols.contains c) = true
      · rw [if_pos hall]
        intro _
        exact hcm
      · rw [if_neg hall]
        exact hres1

lemma set_subtypes_inv (be : Backend) (reg : List (String × List String))
    (pairs : List (String × String)) :
    ∀ ds : DataSource, rows_cm_inv ds →
      rows_cm_inv (DataSource.set_subtypes be reg ds pairs).2.1 := by
  induction pairs with
  | nil => intro ds h; exact h
  | cons p rest ih =>
    intro ds h
    obtain ⟨col, st⟩ := p
    simp only [DataSource.set_subtypes]
    have hcg := col_map_get_inv be ds h
    rcases e1 : DataSource.col_map_get be ds with ⟨rc, ds1⟩
    rw [e1] at hcg
    have hcg1 : rows_cm_inv ds1 := hcg
    cases rc with
    | error e => exact hcg1
    | ok cm =>
      dsimp only
      split
      · cases find_type_for reg st with
        | some t =>
          apply ih
          intro hdf
          exact hcg1 hdf
        | none => exact hcg1
      · have hrec := ih ds1 hcg1
        rcases e2 : DataSource.set_subtypes be reg ds1 rest with ⟨r1, ds2, w1⟩
        rw [e2] at hrec
        exact hrec

/-- C1 counterexample: on a query-backed source whose pushdown probe
succeeds, a single read of the column map leaves the column map populated
while the rows table is still unpopulated — the pair is not materialized
together. -/
theorem col_map_probe_partial_state_cex :
    ((DataSource.col_map_get
        { setup := fun q => match q with
            | some _ => .ok ({ cols := ["ia"], rows := [[some (.num 9)]] }, [("a", "ia")])
            | none => .ok ({ cols := ["a"], rows := [[some (.num 1)]] }, [("a", "a")])
          parse := fun _ => .ok { whereClause := none, limit := none, rest := "q" }
          fmt := fun _ => .ok "q2"
          binary_ops := fun _ => none }
        (DataSource.mk_init (some "SELECT a FROM t"))).2.internal_col_map =
      some [("a", "ia")]) ∧
    (DataSource.col_map_get
        { setup := fun q => match q with
            | some _ => .ok ({ cols := ["ia"], rows := [[some (.num 9)]] }, [("a", "ia")])
            | none => .ok ({ cols := ["a"], rows := [[some (.num 1)]] }, [("a", "a")])
          parse := fun _ => .ok { whereClause := none, limit := none, rest := "q" }
          fmt := fun _ => .ok "q2"
          binary_ops := fun _ => none }
        (DataSource.mk_init (some "SELECT a FROM t"))).2.internal_df = none :=
  ⟨by decide, by decide⟩

/-- C1 (amended): one direction of the pairing invariant does hold — after
any single public operation, a state whose rows table is populated also
has its column map populated; the converse direction fails (see the
counterexample: a query-backed column-map read populates the map alone). -/
theorem run_op_preserves_rows_cm_inv (be : Backend) (ds : DataSource) (op : Op)
    (h : rows_cm_inv ds) : rows_cm_inv (run_op be ds op) := by
  cases op with
  | read_rows => exact df_get_inv be ds h
  | read_col_map => exact col_map_get_inv be ds h
  | filter_op wh lim g => exact filter_inv be ds wh lim g h
  | drop_columns_op names => exact drop_columns_inv be ds names h
  | set_subtypes_op reg pairs => exact set_subtypes_inv be reg pairs ds h

/-- C1 witness: the invariant is preserved by a concrete rows read on a
fresh non-query-backed source. -/
theorem run_op_preserves_rows_cm_inv_witness :
    rows_cm_inv (DataSource.mk_init none) ∧
    rows_cm_inv (run_op
      { setup := fun _ => .ok ({ cols := ["a"], rows := [[some (.num 1)]] }, [("a", "a")])
        parse := fun _ => .error .parseError
        fmt := fun _ => .error .parseError
        binary_ops := fun _ => none }
      (DataSource.mk_init none) .read_rows) :=
  ⟨fun hdf => absurd hdf (by decide),
    run_op_preserves_rows_cm_inv _ (DataSource.mk_init none) .read_rows
      (fun hdf => absurd hdf (by decide))⟩

/-! ## `drop_columns` on a lazy query-backed source -/

/-- C6: evaluating `drop_columns(["a"])` on a freshly constructed
query-backed source whose backend answers the pushdown probe: the column
map gets populated by the probe, the rows table is never materialized,
and the drop raises `AttributeError` (`self._internal_df` is `None`)
instead of forcing materialization and removing the column. -/
theorem drop_columns_sql_lazy_raises :
    (DataSource.drop_columns
        { setup := fun q => match q with
            | some _ => .ok ({ cols := ["ia"], rows := [[some (.num 9)]] }, [("a", "ia")])
            | none => .ok ({ cols := ["a"], rows := [[some (.num 1)]] }, [("a", "a")])
          parse := fun _ => .ok { whereClause := none, limit := none, rest := "q" }
          fmt := fun _ => .ok "q2"
          binary_ops := fun _ => none }
        (DataSource.mk_init (some "SELECT a FROM t")) ["a"]).1 = .error .attrError ∧
    (DataSource.drop_columns
        { setup := fun q => match q with
            | some _ => .ok ({ cols := ["ia"], rows := [[some (.num 9)]] }, [("a", "ia")])
            | none => .ok ({ cols := ["a"], rows := [[some (.num 1)]] }, [("a", "a")])
          parse := fun _ => .ok { whereClause := none, limit := none, rest := "q" }
          fmt := fun _ => .ok "q2"
          binary_ops := fun _ => none }
        (DataSource.mk_init (some "SELECT a FROM t")) ["a"]).2.internal_df = none :=
  ⟨by decide, by decide⟩

end MindsdbDS
